import Mathlib

/-!
Verification of the K15 NES pad library (`k15_nespad.h`).

The library drives a NES controller over three digital pins: it latches the
controller's button state, then pulses 8 bits out of the controller's shift
register, reading one active-low data bit per pulse.  We embed the three C
functions (`K15_NESInitPad`, `K15_NESPollButtons`, `K15_NESButtonPressed`) as
pure Lean functions with explicit state passing.  The platform collaborators
(`pinMode`, `digitalWrite`, `digitalRead`, `delayMicroseconds`) are modelled by
an event trace of type `List PinEvent`, and the levels sampled from the data
pin are supplied by a scripted read sequence `reads : Nat → Nat` (the value
`reads i` is what the i-th `digitalRead` call returns).  The `unsigned char`
struct fields are modelled as `Nat` with an explicit `% 256` at every store
that narrows a C `int`.
-/

/-- Arduino logic level LOW (the C macro `LOW` is 0). -/
def LOW : Nat := 0

/-- Arduino logic level HIGH (the C macro `HIGH` is 1). -/
def HIGH : Nat := 1

/-- Arduino pin direction INPUT (the C macro `INPUT` is 0). -/
def INPUT : Nat := 0

/-- Arduino pin direction OUTPUT (the C macro `OUTPUT` is 1). -/
def OUTPUT : Nat := 1

/-- One observable interaction with the platform pin API. -/
inductive PinEvent where
  | pinMode (pin : Nat) (mode : Nat)
  | digitalWrite (pin : Nat) (level : Nat)
  | digitalRead (pin : Nat) (level : Nat)
  | delayMicroseconds (us : Nat)
deriving DecidableEq

/-- The `K15_NESPad` struct: four `unsigned char` fields, modelled as `Nat`
kept below 256 by reduction at each store. -/
structure K15_NESPad where
  buttonMask : Nat
  pulsePin : Nat
  dataPin : Nat
  latchPin : Nat
deriving DecidableEq

/-- Enum value `K15_NESPadButton_A = 0x01`. -/
def K15_NESPadButton_A : Nat := 0x01

/-- Enum value `K15_NESPadButton_B = 0x02`. -/
def K15_NESPadButton_B : Nat := 0x02

/-- Enum value `K15_NESPadButton_Select = 0x04`. -/
def K15_NESPadButton_Select : Nat := 0x04

/-- Enum value `K15_NESPadButton_Start = 0x08`. -/
def K15_NESPadButton_Start : Nat := 0x08

/-- Enum value `K15_NESPadButton_Up = 0x10`. -/
def K15_NESPadButton_Up : Nat := 0x10

/-- Enum value `K15_NESPadButton_Down = 0x20`. -/
def K15_NESPadButton_Down : Nat := 0x20

/-- Enum value `K15_NESPadButton_Left = 0x40`. -/
def K15_NESPadButton_Left : Nat := 0x40

/-- Enum value `K15_NESPadButton_Right = 0x80`. -/
def K15_NESPadButton_Right : Nat := 0x80

/-- The eight button flags in the sampling order of the poll loop
(position 0 = A … position 7 = Right). -/
def nesButtonOrder : List Nat :=
  [K15_NESPadButton_A, K15_NESPadButton_B, K15_NESPadButton_Select,
   K15_NESPadButton_Start, K15_NESPadButton_Up, K15_NESPadButton_Down,
   K15_NESPadButton_Left, K15_NESPadButton_Right]

/-- `K15_NESInitPad`.  A null pad pointer (`none`) returns immediately with no
effect.  Otherwise the struct is overwritten: `buttonMask = 0` and the three
`int` pin arguments are narrowed into the `unsigned char` fields (`% 256`);
then `pinMode` is called with the original `int` arguments, data pin as INPUT
and pulse/latch pins as OUTPUT. -/
def K15_NESInitPad (pad : Option K15_NESPad) (pulsePin dataPin latchPin : Nat) :
    Option K15_NESPad × List PinEvent :=
  match pad with
  | none => (none, [])
  | some _ =>
    (some { buttonMask := 0, pulsePin := pulsePin % 256,
            dataPin := dataPin % 256, latchPin := latchPin % 256 },
     [PinEvent.pinMode dataPin INPUT, PinEvent.pinMode pulsePin OUTPUT,
      PinEvent.pinMode latchPin OUTPUT])

/-- The index sequence of the poll loop,
`for (buttonIndex = 0; buttonIndex < 8; ++buttonIndex)`. -/
def nesButtonIndices : List Nat := [0, 1, 2, 3, 4, 5, 6, 7]

/-- Body of the poll loop.  Each iteration reads the data pin, writes the pulse
pin HIGH then LOW, and ORs `1 << buttonIndex` into the local accumulator when
the sampled level was LOW.  Returns the final accumulator and the pin events
of the loop in order. -/
def pollIter (dataPin pulsePin : Nat) (reads : Nat → Nat) (acc : Nat) :
    List Nat → Nat × List PinEvent
  | [] => (acc, [])
  | buttonIndex :: rest =>
    let dataPulse := reads buttonIndex
    let acc2 := if dataPulse = LOW then acc ||| (1 <<< buttonIndex) else acc
    let r := pollIter dataPin pulsePin reads acc2 rest
    (r.1, PinEvent.digitalRead dataPin dataPulse ::
      PinEvent.digitalWrite pulsePin HIGH ::
      PinEvent.digitalWrite pulsePin LOW :: r.2)

/-- `K15_NESPollButtons`.  A null pad pointer (`none`) returns immediately with
no effect.  Otherwise: latch pin HIGH then LOW, a 6 microsecond delay, then the
8-iteration read loop; finally the local accumulator is stored into the
`unsigned char` field `buttonMask` (narrowing the C `int`, `% 256`). -/
def K15_NESPollButtons (pad : Option K15_NESPad) (reads : Nat → Nat) :
    Option K15_NESPad × List PinEvent :=
  match pad with
  | none => (none, [])
  | some p =>
    let r := pollIter p.dataPin p.pulsePin reads 0 nesButtonIndices
    (some { p with buttonMask := r.1 % 256 },
     PinEvent.digitalWrite p.latchPin HIGH ::
       PinEvent.digitalWrite p.latchPin LOW ::
       PinEvent.delayMicroseconds 6 :: r.2)

/-- `K15_NESButtonPressed`.  A null pad pointer (`none`) returns 0.  Otherwise
returns the C `int` value of `(p_Pad->buttonMask & p_Button) > 0`.  The
function writes nothing through the pointer and performs no pin interaction,
so the embedding returns the pad unchanged and an empty event trace. -/
def K15_NESButtonPressed (pad : Option K15_NESPad) (button : Nat) :
    Nat × Option K15_NESPad × List PinEvent :=
  match pad with
  | none => (0, none, [])
  | some p => ((if p.buttonMask &&& button > 0 then 1 else 0), some p, [])

/-- Modelled from the spec (section 8, first testable property): the integer
formed by treating a LOW reading at position i as bit i set, over the 8
sampled positions. -/
def specMask (reads : Nat → Nat) : Nat :=
  nesButtonIndices.foldr (fun i acc => (if reads i = LOW then 2 ^ i else 0) + acc) 0

/-- Modelled from the spec (section 4.1, `poll` protocol): the exact pin I/O
sequence one poll must produce — latch HIGH, latch LOW, a 6 microsecond wait,
then 8 iterations of (data read, pulse HIGH, pulse LOW). -/
def pollTraceSpec (pulsePin dataPin latchPin : Nat) (reads : Nat → Nat) :
    List PinEvent :=
  [PinEvent.digitalWrite latchPin HIGH, PinEvent.digitalWrite latchPin LOW,
   PinEvent.delayMicroseconds 6,
   PinEvent.digitalRead dataPin (reads 0), PinEvent.digitalWrite pulsePin HIGH,
   PinEvent.digitalWrite pulsePin LOW,
   PinEvent.digitalRead dataPin (reads 1), PinEvent.digitalWrite pulsePin HIGH,
   PinEvent.digitalWrite pulsePin LOW,
   PinEvent.digitalRead dataPin (reads 2), PinEvent.digitalWrite pulsePin HIGH,
   PinEvent.digitalWrite pulsePin LOW,
   PinEvent.digitalRead dataPin (reads 3), PinEvent.digitalWrite pulsePin HIGH,
   PinEvent.digitalWrite pulsePin LOW,
   PinEvent.digitalRead dataPin (reads 4), PinEvent.digitalWrite pulsePin HIGH,
   PinEvent.digitalWrite pulsePin LOW,
   PinEvent.digitalRead dataPin (reads 5), PinEvent.digitalWrite pulsePin HIGH,
   PinEvent.digitalWrite pulsePin LOW,
   PinEvent.digitalRead dataPin (reads 6), PinEvent.digitalWrite pulsePin HIGH,
   PinEvent.digitalWrite pulsePin LOW,
   PinEvent.digitalRead dataPin (reads 7), PinEvent.digitalWrite pulsePin HIGH,
   PinEvent.digitalWrite pulsePin LOW]

/-- Claim C2: one call to `K15_NESPollButtons` on an initialized (non-null)
reader produces exactly this pin I/O sequence: latch HIGH, latch LOW, a
6-microsecond wait, then 8 iterations each of one data-pin read followed by
pulse HIGH and pulse LOW.  In particular the single latch high-to-low
transition precedes every pulse transition, exactly 8 pulse high-to-low
transitions follow, and the position-0 read happens before the first pulse. -/
theorem poll_pin_event_sequence (p : K15_NESPad) (reads : Nat → Nat) :
    (K15_NESPollButtons (some p) reads).2 =
      pollTraceSpec p.pulsePin p.dataPin p.latchPin reads := rfl

/-- Claim C4: `K15_NESInitPad` on a non-null reader stores `buttonMask = 0`
and the three pin identifiers (narrowed into the `unsigned char` fields), and
configures the data pin as INPUT and the pulse and latch pins as OUTPUT. -/
theorem initPad_configures_and_zeroes (old : K15_NESPad) (pu d l : Nat) :
    K15_NESInitPad (some old) pu d l =
      (some { buttonMask := 0, pulsePin := pu % 256, dataPin := d % 256,
              latchPin := l % 256 },
       [PinEvent.pinMode d INPUT, PinEvent.pinMode pu OUTPUT,
        PinEvent.pinMode l OUTPUT]) := rfl

/-- Claim C5: with a null reader each operation degrades to its safe default
with no pin I/O and no state change: `K15_NESInitPad` and `K15_NESPollButtons`
are no-ops and `K15_NESButtonPressed` returns 0. -/
theorem null_reader_safe_defaults (pu d l b : Nat) (reads : Nat → Nat) :
    K15_NESInitPad none pu d l = (none, []) ∧
    K15_NESPollButtons none reads = (none, []) ∧
    K15_NESButtonPressed none b = (0, none, []) := ⟨rfl, rfl, rfl⟩

/-- Claim C6: immediately after `K15_NESInitPad` and before any poll,
`K15_NESButtonPressed` returns 0 (false) for every one of the 8 button flags:
the stored `buttonMask` starts at 0. -/
theorem buttonPressed_false_after_init (old : K15_NESPad) (pu d l : Nat) :
    (K15_NESButtonPressed (K15_NESInitPad (some old) pu d l).1
        K15_NESPadButton_A).1 = 0 ∧
    (K15_NESButtonPressed (K15_NESInitPad (some old) pu d l).1
        K15_NESPadButton_B).1 = 0 ∧
    (K15_NESButtonPressed (K15_NESInitPad (some old) pu d l).1
        K15_NESPadButton_Select).1 = 0 ∧
    (K15_NESButtonPressed (K15_NESInitPad (some old) pu d l).1
        K15_NESPadButton_Start).1 = 0 ∧
    (K15_NESButtonPressed (K15_NESInitPad (some old) pu d l).1
        K15_NESPadButton_Up).1 = 0 ∧
    (K15_NESButtonPressed (K15_NESInitPad (some old) pu d l).1
        K15_NESPadButton_Down).1 = 0 ∧
    (K15_NESButtonPressed (K15_NESInitPad (some old) pu d l).1
        K15_NESPadButton_Left).1 = 0 ∧
    (K15_NESButtonPressed (K15_NESInitPad (some old) pu d l).1
        K15_NESPadButton_Right).1 = 0 := by
  refine ⟨?_, ?_, ?_, ?_, ?_, ?_, ?_, ?_⟩ <;>
    simp [K15_NESInitPad, K15_NESButtonPressed]

/-- Claim C7: `K15_NESPollButtons` changes only the `buttonMask` field — the
three pin fields are preserved — and the new `buttonMask` is written by the
single whole-value store of the loop's local accumulator at the end of the
poll (the struct is untouched during the loop, which works on a local).
`K15_NESButtonPressed` modifies no field at all and performs no pin I/O. -/
theorem poll_frame_only_buttonMask (p : K15_NESPad) (reads : Nat → Nat) (b : Nat) :
    (K15_NESPollButtons (some p) reads).1 =
      some { p with
             buttonMask :=
               (pollIter p.dataPin p.pulsePin reads 0 nesButtonIndices).1 % 256 } ∧
    (K15_NESButtonPressed (some p) b).2.1 = some p ∧
    (K15_NESButtonPressed (some p) b).2.2 = [] :=
  ⟨rfl, rfl, rfl⟩

set_option maxHeartbeats 3000000 in
/-- Helper: the pad returned by a poll is the input pad with `buttonMask`
replaced by the spec-side mask of the 8 sampled levels.  Proved by exhausting
the 256 combinations of low/non-low levels at the 8 sampled positions. -/
lemma poll_fst_eq (p : K15_NESPad) (reads : Nat → Nat) :
    (K15_NESPollButtons (some p) reads).1 =
      some { p with buttonMask := specMask reads } := by
  by_cases h0 : reads 0 = 0 <;> by_cases h1 : reads 1 = 0 <;>
  by_cases h2 : reads 2 = 0 <;> by_cases h3 : reads 3 = 0 <;>
  by_cases h4 : reads 4 = 0 <;> by_cases h5 : reads 5 = 0 <;>
  by_cases h6 : reads 6 = 0 <;> by_cases h7 : reads 7 = 0 <;>
    simp [K15_NESPollButtons, pollIter, nesButtonIndices, specMask, LOW,
      h0, h1, h2, h3, h4, h5, h6, h7]

/-- Claim C1: for every sequence of 8 data-pin levels supplied during a poll on
an initialized (non-null) reader, the stored `buttonMask` afterwards equals the
8-bit integer whose bit i (in sampling order) is set exactly when the i-th
reading was LOW. -/
theorem poll_buttonMask_matches_low_readings (p : K15_NESPad) (reads : Nat → Nat) :
    ((K15_NESPollButtons (some p) reads).1).map K15_NESPad.buttonMask =
      some (specMask reads) := by
  rw [poll_fst_eq]
  rfl

/-- Claim C3: on a non-null reader, `K15_NESButtonPressed` returns 1 exactly
when `buttonMask & button` is nonzero and 0 exactly when it is zero, performs
no pin I/O and changes no state, and bits of `buttonMask` outside the queried
button's bit cannot change the result (the result is a function of
`buttonMask &&& button` alone); on mask 0b00010001 it reports A and Up pressed
and the other six buttons not pressed. -/
theorem buttonPressed_iff_mask_bit (p : K15_NESPad) (b : Nat) :
    ((K15_NESButtonPressed (some p) b).1 = 1 ↔ p.buttonMask &&& b ≠ 0) ∧
    ((K15_NESButtonPressed (some p) b).1 = 0 ↔ p.buttonMask &&& b = 0) ∧
    (K15_NESButtonPressed (some p) b).2.1 = some p ∧
    (K15_NESButtonPressed (some p) b).2.2 = [] ∧
    (K15_NESButtonPressed (some ⟨0b00010001, 0, 0, 0⟩) K15_NESPadButton_A).1 = 1 ∧
    (K15_NESButtonPressed (some ⟨0b00010001, 0, 0, 0⟩) K15_NESPadButton_Up).1 = 1 ∧
    (K15_NESButtonPressed (some ⟨0b00010001, 0, 0, 0⟩) K15_NESPadButton_B).1 = 0 ∧
    (K15_NESButtonPressed (some ⟨0b00010001, 0, 0, 0⟩) K15_NESPadButton_Select).1 = 0 ∧
    (K15_NESButtonPressed (some ⟨0b00010001, 0, 0, 0⟩) K15_NESPadButton_Start).1 = 0 ∧
    (K15_NESButtonPressed (some ⟨0b00010001, 0, 0, 0⟩) K15_NESPadButton_Down).1 = 0 ∧
    (K15_NESButtonPressed (some ⟨0b00010001, 0, 0, 0⟩) K15_NESPadButton_Left).1 = 0 ∧
    (K15_NESButtonPressed (some ⟨0b00010001, 0, 0, 0⟩) K15_NESPadButton_Right).1 = 0 := by
  refine ⟨?_, ?_, rfl, rfl, by decide, by decide, by decide, by decide,
    by decide, by decide, by decide, by decide⟩
  · by_cases hb : p.buttonMask &&& b = 0
    · simp [K15_NESButtonPressed, hb]
    · simp [K15_NESButtonPressed, hb, Nat.pos_of_ne_zero hb]
  · by_cases hb : p.buttonMask &&& b = 0
    · simp [K15_NESButtonPressed, hb]
    · simp [K15_NESButtonPressed, hb, Nat.pos_of_ne_zero hb]

set_option maxHeartbeats 3000000 in
/-- Claim C8: the 8 button identifiers have the fixed values A=0x01, B=0x02,
Select=0x04, Start=0x08, Up=0x10, Down=0x20, Left=0x40, Right=0x80; in
sampling order the i-th button flag is `2 ^ i`; and each flag queries exactly
bit i of the mask filled by the poll, i.e. after a poll the flag at position i
reads as pressed precisely when the i-th sampled level was LOW. -/
theorem button_flag_values_and_order :
    K15_NESPadButton_A = 0x01 ∧ K15_NESPadButton_B = 0x02 ∧
    K15_NESPadButton_Select = 0x04 ∧ K15_NESPadButton_Start = 0x08 ∧
    K15_NESPadButton_Up = 0x10 ∧ K15_NESPadButton_Down = 0x20 ∧
    K15_NESPadButton_Left = 0x40 ∧ K15_NESPadButton_Right = 0x80 ∧
    nesButtonOrder = [2 ^ 0, 2 ^ 1, 2 ^ 2, 2 ^ 3, 2 ^ 4, 2 ^ 5, 2 ^ 6, 2 ^ 7] ∧
    ∀ (p : K15_NESPad) (reads : Nat → Nat),
      ((K15_NESButtonPressed ((K15_NESPollButtons (some p) reads).1)
          K15_NESPadButton_A).1 = if reads 0 = LOW then 1 else 0) ∧
      ((K15_NESButtonPressed ((K15_NESPollButtons (some p) reads).1)
          K15_NESPadButton_B).1 = if reads 1 = LOW then 1 else 0) ∧
      ((K15_NESButtonPressed ((K15_NESPollButtons (some p) reads).1)
          K15_NESPadButton_Select).1 = if reads 2 = LOW then 1 else 0) ∧
      ((K15_NESButtonPressed ((K15_NESPollButtons (some p) reads).1)
          K15_NESPadButton_Start).1 = if reads 3 = LOW then 1 else 0) ∧
      ((K15_NESButtonPressed ((K15_NESPollButtons (some p) reads).1)
          K15_NESPadButton_Up).1 = if reads 4 = LOW then 1 else 0) ∧
      ((K15_NESButtonPressed ((K15_NESPollButtons (some p) reads).1)
          K15_NESPadButton_Down).1 = if reads 5 = LOW then 1 else 0) ∧
      ((K15_NESButtonPressed ((K15_NESPollButtons (some p) reads).1)
          K15_NESPadButton_Left).1 = if reads 6 = LOW then 1 else 0) ∧
      ((K15_NESButtonPressed ((K15_NESPollButtons (some p) reads).1)
          K15_NESPadButton_Right).1 = if reads 7 = LOW then 1 else 0) := by
  refine ⟨rfl, rfl, rfl, rfl, rfl, rfl, rfl, rfl, by decide, ?_⟩
  intro p reads
  rw [poll_fst_eq]
  by_cases h0 : reads 0 = 0 <;> by_cases h1 : reads 1 = 0 <;>
  by_cases h2 : reads 2 = 0 <;> by_cases h3 : reads 3 = 0 <;>
  by_cases h4 : reads 4 = 0 <;> by_cases h5 : reads 5 = 0 <;>
  by_cases h6 : reads 6 = 0 <;> by_cases h7 : reads 7 = 0 <;>
    simp [K15_NESButtonPressed, specMask, nesButtonIndices, LOW,
      K15_NESPadButton_A, K15_NESPadButton_B, K15_NESPadButton_Select,
      K15_NESPadButton_Start, K15_NESPadButton_Up, K15_NESPadButton_Down,
      K15_NESPadButton_Left, K15_NESPadButton_Right,
      h0, h1, h2, h3, h4, h5, h6, h7] <;> decide

/-- Claim C9: `K15_NESInitPad` narrows its `int` pin arguments into the
`unsigned char` struct fields, so the stored pin identifiers are the arguments
reduced modulo 256, the subsequent poll performs all its pin I/O on those
reduced identifiers, and any two argument triples that agree modulo 256 yield
indistinguishable readers (equal structs, regardless of prior contents). -/
theorem initPad_narrows_pins_mod_256 (old1 old2 : K15_NESPad)
    (pu1 pu2 d1 d2 l1 l2 : Nat)
    (hpu : pu1 % 256 = pu2 % 256) (hd : d1 % 256 = d2 % 256)
    (hl : l1 % 256 = l2 % 256) :
    (K15_NESInitPad (some old1) pu1 d1 l1).1 =
      some { buttonMask := 0, pulsePin := pu1 % 256, dataPin := d1 % 256,
             latchPin := l1 % 256 } ∧
    (K15_NESInitPad (some old1) pu1 d1 l1).1 =
      (K15_NESInitPad (some old2) pu2 d2 l2).1 ∧
    ∀ reads, (K15_NESPollButtons (K15_NESInitPad (some old1) pu1 d1 l1).1 reads).2 =
      pollTraceSpec (pu1 % 256) (d1 % 256) (l1 % 256) reads := by
  refine ⟨rfl, ?_, fun reads => rfl⟩
  simp [K15_NESInitPad, hpu, hd, hl]

/-- Witness for C9 at concrete inputs: 259 ≡ 3, 260 ≡ 4 and 261 ≡ 5 modulo
256, and the two initializations produce equal readers. -/
theorem initPad_narrows_pins_mod_256_witness :
    259 % 256 = 3 % 256 ∧ 260 % 256 = 4 % 256 ∧ 261 % 256 = 5 % 256 ∧
    (K15_NESInitPad (some ⟨1, 2, 3, 4⟩) 259 260 261).1 =
      (K15_NESInitPad (some ⟨9, 9, 9, 9⟩) 3 4 5).1 :=
  ⟨by decide, by decide, by decide,
   (initPad_narrows_pins_mod_256 ⟨1, 2, 3, 4⟩ ⟨9, 9, 9, 9⟩ 259 3 260 4 261 5
      (by decide) (by decide) (by decide)).2.1⟩

/-- Claim C10: for a non-null reader and an arbitrary button argument —
including values with several bits set, which the spec's single-bit-flag
precondition excludes — `K15_NESButtonPressed` returns 1 exactly when some bit
of the argument is also set in `buttonMask` (any-of semantics), and its result
is always exactly 0 or 1. -/
theorem buttonPressed_any_of_semantics (p : K15_NESPad) (b : Nat) :
    ((K15_NESButtonPressed (some p) b).1 = 1 ↔
      ∃ i, b.testBit i = true ∧ p.buttonMask.testBit i = true) ∧
    ((K15_NESButtonPressed (some p) b).1 = 0 ∨
      (K15_NESButtonPressed (some p) b).1 = 1) := by
  have key : p.buttonMask &&& b ≠ 0 ↔
      ∃ i, b.testBit i = true ∧ p.buttonMask.testBit i = true := by
    constructor
    · intro h
      obtain ⟨i, hi⟩ := Nat.ne_zero_implies_bit_true h
      rw [Nat.testBit_and] at hi
      exact ⟨i, (Bool.and_eq_true _ _).mp hi |>.2, (Bool.and_eq_true _ _).mp hi |>.1⟩
    · rintro ⟨i, hbi, hmi⟩ h0
      have hbit : (p.buttonMask &&& b).testBit i = true := by
        rw [Nat.testBit_and, hmi, hbi]
        rfl
      rw [h0] at hbit
      simp [Nat.zero_testBit] at hbit
  constructor
  · rw [← key]
    by_cases hb : p.buttonMask &&& b = 0
    · simp [K15_NESButtonPressed, hb]
    · simp [K15_NESButtonPressed, hb, Nat.pos_of_ne_zero hb]
  · by_cases hb : p.buttonMask &&& b = 0
    · simp [K15_NESButtonPressed, hb]
    · simp [K15_NESButtonPressed, hb, Nat.pos_of_ne_zero hb]
